import Mathlib

/-!
# Shallow embedding of `analyze_pg_spike.py` and `compare_leader_replica.py`

Embedding conventions:
* Python floats are modelled as `ℚ` (exact arithmetic; every claim below is
  about guards, counts, classification and set algebra, none about rounding).
* A snapshot JSON record is a structure whose required numeric fields
  (`load_avg_1m/5m/15m`, `active_query_count`) are plain fields — a record
  missing one of them aborts ingestion before the core ever runs — and whose
  `queries` key defaults to the empty list (`snapshot.get('queries', [])`).
* A query record is a dictionary; every key the code or the spec reads is an
  `Option` field (`none` = key absent).  Note that the code reads the key
  `usename` (the `pg_stat_activity` column name) while the spec's data model
  names the attribute `username`; both keys are carried so the difference is
  expressible.
* Code that raises is modelled with `Except PyErr`; the Python value `None`
  returned by `compare_leader_replica.extract_metrics` on empty input is
  modelled as `Option.none` (a value, not an error).
* Python `set` becomes `Finset String`; a `Counter` is kept as the list of
  observations it was built from (the key → count view is `List.count`).
-/

/-- Python exception kinds that the modelled code can raise. -/
inductive PyErr where
  | valueError
  | zeroDivision
  | typeError
deriving DecidableEq

/-- One in-flight query record inside a snapshot (a JSON dictionary).
Each field is a key the code or the spec reads; `none` means the key is
absent from the record. -/
structure Query where
  wait_event : Option String := none
  wait_event_type : Option String := none
  query_duration_sec : Option ℚ := none
  transaction_duration_sec : Option ℚ := none
  application_name : Option String := none
  username : Option String := none
  usename : Option String := none
  query_preview : Option String := none
deriving DecidableEq

/-- One sampled instant.  The four numeric fields are required by the
extractors (`s['load_avg_1m']` etc. — a missing key is a fatal ingestion
error, so they are plain fields here); `queries` is read with
`snapshot.get('queries', [])`, so a missing key is the empty list. -/
structure Snapshot where
  load_avg_1m : ℚ
  load_avg_5m : ℚ
  load_avg_15m : ℚ
  active_query_count : ℚ
  queries : List Query := []
deriving DecidableEq

/-- All query observations of a snapshot sequence, in traversal order
(the nested `for snapshot … for query …` loop). -/
def snapQueries (S : List Snapshot) : List Query :=
  S.flatMap (fun s => s.queries)

/-- Python whitespace characters recognised by `str.split()` (ASCII part). -/
def isPySpace (c : Char) : Bool :=
  c == ' ' || c == '\t' || c == '\n' || c == '\r' ||
  c == Char.ofNat 11 || c == Char.ofNat 12

/-- Python `s[:n]` on a string: the first `n` code points. -/
def strTake (s : String) (n : ℕ) : String := ⟨s.data.take n⟩

/-- Helper for `str.split()`: accumulate the current word (reversed) while
scanning; whitespace closes the word, nothing is emitted for empty runs. -/
def wordsAux : List Char → List Char → List (List Char)
  | [], cur => if cur.isEmpty then [] else [cur.reverse]
  | c :: cs, cur =>
    if isPySpace c then
      if cur.isEmpty then wordsAux cs [] else cur.reverse :: wordsAux cs []
    else wordsAux cs (c :: cur)

/-- Python `s.split()`: split on runs of whitespace, no empty tokens. -/
def pyWsSplit (s : String) : List String := (wordsAux s.data []).map (fun w => ⟨w⟩)

/-- Python `' '.join(ws)`. -/
def joinSpace : List String → String
  | [] => ""
  | [w] => w
  | w :: ws => w ++ " " ++ joinSpace ws

/-- `query.get('wait_event', 'unknown')` (line 58 / line 35). -/
def pyWaitEvent (q : Query) : String := q.wait_event.getD "unknown"

/-- `query.get('wait_event_type', 'unknown')` (line 59 / line 36). -/
def pyWaitType (q : Query) : String := q.wait_event_type.getD "unknown"

/-- `query.get('query_duration_sec', 0)` (line 60 / line 37). -/
def pyDuration (q : Query) : ℚ := q.query_duration_sec.getD 0

/-- `query.get('transaction_duration_sec', 0)` (line 66). -/
def pyTxDuration (q : Query) : ℚ := q.transaction_duration_sec.getD 0

/-- `query.get('application_name', 'unknown')` (line 61 / line 38). -/
def pyApp (q : Query) : String := q.application_name.getD "unknown"

/-- `query.get('usename', 'unknown')` (line 68) — note the key is the
`pg_stat_activity` column name `usename`, not the spec's `username`. -/
def pyUser (q : Query) : String := q.usename.getD "unknown"

/-- `query.get('query_preview', '')` (lines 23 and 71). -/
def pyPreview (q : Query) : String := q.query_preview.getD ""

/-- `get_query_signature` (analyze_pg_spike.py lines 21–28):
empty preview gives `None`, otherwise `' '.join(preview[:200].split())`. -/
def get_query_signature (q : Query) : Option String :=
  let preview := pyPreview q
  if preview = "" then none
  else some (joinSpace (pyWsSplit (strTake preview 200)))

/-- The signature an observation contributes to the signature set, if any
(lines 71–79: only when the preview is non-empty and the normalized
signature is itself non-empty, i.e. truthy). -/
def sigContribution (q : Query) : Option String :=
  if pyPreview q = "" then none
  else
    match get_query_signature q with
    | none => none
    | some sig => if sig = "" then none else some sig

/-- Signature set accumulated over a list of query observations. -/
def sigSet (l : List Query) : Finset String :=
  (l.filterMap sigContribution).toFinset

/-- Query pattern: `' '.join(preview.split()[:15])` (line 73). -/
def pattern15 (preview : String) : String :=
  joinSpace ((pyWsSplit preview).take 15)

/-- Long-query entry (analyze_pg_spike.py lines 82–89). -/
structure LongQuery where
  duration : ℚ
  app : String
  wait : String
  wait_type : String
  preview : String
deriving DecidableEq

/-- Lock-wait entry (analyze_pg_spike.py lines 92–98). -/
structure LockWait where
  duration : ℚ
  app : String
  wait : String
  preview : String
deriving DecidableEq

/-- `if duration > 10:` append the long-query record (lines 82–89). -/
def longEntry (q : Query) : Option LongQuery :=
  if 10 < pyDuration q then
    some { duration := pyDuration q, app := pyApp q, wait := pyWaitEvent q,
           wait_type := pyWaitType q, preview := strTake (pyPreview q) 150 }
  else none

/-- `if wait_type == 'Lock':` append the lock-wait record (lines 92–98). -/
def lockEntry (q : Query) : Option LockWait :=
  if pyWaitType q = "Lock" then
    some { duration := pyDuration q, app := pyApp q, wait := pyWaitEvent q,
           preview := strTake (pyPreview q) 150 }
  else none

/-- Min/max/mean/median summary of one numeric column (lines 103–112). -/
structure Stats4 where
  min : ℚ
  max : ℚ
  avg : ℚ
  median : ℚ
deriving DecidableEq

/-- Arithmetic mean, `statistics.mean`; only ever applied to non-empty
lists in this development (each call site is guarded exactly as the
source guards or excludes the empty case). -/
def pyMean (l : List ℚ) : ℚ := l.sum / (l.length : ℚ)

/-- Insert into an ascending-sorted list (helper for `statistics.median`,
which sorts its input ascending). -/
def insertAscQ (x : ℚ) : List ℚ → List ℚ
  | [] => [x]
  | y :: ys => if x ≤ y then x :: y :: ys else y :: insertAscQ x ys

/-- Ascending insertion sort on rationals. -/
def sortAscQ (l : List ℚ) : List ℚ := l.foldr insertAscQ []

/-- `statistics.median` of the non-empty list `x :: xs`: sort ascending,
take the middle element (odd length) or the mean of the two middle
elements (even length). -/
def pyMedian (x : ℚ) (xs : List ℚ) : ℚ :=
  let s := sortAscQ (x :: xs)
  let n := s.length
  if n % 2 = 1 then s.getD (n / 2) 0
  else (s.getD (n / 2 - 1) 0 + s.getD (n / 2) 0) / 2

/-- `{'min': min(l), 'max': max(l), 'avg': mean(l), 'median': median(l)}`
for the non-empty column `x :: xs`. -/
def stat4 (x : ℚ) (xs : List ℚ) : Stats4 :=
  { min := xs.foldl Min.min x
    max := xs.foldl Max.max x
    avg := pyMean (x :: xs)
    median := pyMedian x xs }

/-- `MetricsSummary`: the dictionary returned by
`analyze_pg_spike.extract_metrics` (lines 100–124).  `Counter(...)` fields
keep the observation list the counter was built from. -/
structure MetricsSummary where
  snapshot_count : ℕ
  load_1m : Stats4
  load_5m : Stats4
  load_15m : Stats4
  active_queries : Stats4
  wait_events : List String
  wait_event_types : List String
  query_durations : List ℚ
  transaction_durations : List ℚ
  applications : List String
  users : List String
  query_patterns : List String
  query_signatures : Finset String
  total_queries_observed : ℕ
  long_queries : List LongQuery
  lock_waits : List LockWait
deriving DecidableEq

/-- `analyze_pg_spike.extract_metrics` (lines 31–124).  On the empty
sequence the dictionary construction evaluates `min([])`, which raises
`ValueError`.  The per-field definitions are the comprehensions equivalent
to the single `for snapshot … for query …` pass of lines 56–98. -/
def extract_metrics : List Snapshot → Except PyErr MetricsSummary
  | [] => Except.error PyErr.valueError
  | s0 :: rest =>
    let S := s0 :: rest
    let qs := snapQueries S
    Except.ok
      { snapshot_count := S.length
        load_1m := stat4 s0.load_avg_1m (rest.map (fun s => s.load_avg_1m))
        load_5m := stat4 s0.load_avg_5m (rest.map (fun s => s.load_avg_5m))
        load_15m := stat4 s0.load_avg_15m (rest.map (fun s => s.load_avg_15m))
        active_queries :=
          stat4 s0.active_query_count (rest.map (fun s => s.active_query_count))
        wait_events := qs.map pyWaitEvent
        wait_event_types := qs.map pyWaitType
        query_durations := qs.map pyDuration
        transaction_durations := qs.map pyTxDuration
        applications := qs.map pyApp
        users := qs.map pyUser
        query_patterns :=
          qs.filterMap (fun q =>
            if pyPreview q = "" then none else some (pattern15 (pyPreview q)))
        query_signatures := sigSet qs
        total_queries_observed := (qs.map pyDuration).length
        long_queries := qs.filterMap longEntry
        lock_waits := qs.filterMap lockEntry }

/-- One severity-tagged finding (analyze_pg_spike.py lines 317–347); each
constructor carries the data its message cites. -/
inductive Finding where
  | critLongQueries (nNormal nSpike : ℕ)
  | highLockWaits (nNormal nSpike : ℕ)
  | loadShift (increased : Bool) (absPct : ℚ)
  | newApps (count : ℕ)
  | mainCulprit (app : String) (count : ℕ)
  | noSignificantDiff
deriving DecidableEq

/-- Query-duration comparison block (lines 183–196), present only when
both periods observed at least one query. -/
structure DurationCmp where
  normal_avg : ℚ
  spike_avg : ℚ
  diff : ℚ
  pct : ℚ
deriving DecidableEq

/-- The data of the comparison report produced by `compare_metrics`
(deltas, set algebra, findings).  The rendered markdown strings are
formatting only and are not modelled. -/
structure CMReport where
  load_diff : ℚ
  load_pct : ℚ
  query_diff : ℚ
  query_pct : ℚ
  durationCmp : Option DurationCmp
  both : Finset String
  only_in_spike : Finset String
  only_in_normal : Finset String
  only_spike_apps : Finset String
  only_normal_apps : Finset String
  findings : List Finding
deriving DecidableEq

/-- Stable insert for a descending sort by key `f`: the new element goes
before the first element whose key is ≤ its own. -/
def insertDescBy (f : LongQuery → ℚ) (x : LongQuery) : List LongQuery → List LongQuery
  | [] => [x]
  | y :: ys => if f y ≤ f x then x :: y :: ys else y :: insertDescBy f x ys

/-- `list.sort(key=lambda x: x['duration'], reverse=True)` — Python's
stable sort, descending by duration (equal keys keep their order). -/
def pySortLong (l : List LongQuery) : List LongQuery :=
  l.foldr (insertDescBy (fun e => e.duration)) []

/-- Keys of a Python `Counter`/dict in insertion order: first occurrences. -/
def firstOccurrences (l : List String) : List String :=
  l.foldl (fun acc x => if x ∈ acc then acc else acc ++ [x]) []

/-- `Counter(l).most_common(1)[0]`: the first-encountered key of maximal
count (CPython's `max`/`nlargest` returns the earliest maximal item);
`none` exactly when the list is empty. -/
def mostCommon1 (l : List String) : Option (String × ℕ) :=
  (firstOccurrences l).foldl
    (fun best k =>
      match best with
      | none => some (k, l.count k)
      | some p => if l.count k > p.2 then some (k, l.count k) else best)
    none

/-- `compare_metrics(normal, spike)` (analyze_pg_spike.py lines 139–352).
The Python function mutates its second argument in place at line 203
(`spike['long_queries'].sort(...)`), so the model returns the final
states of both inputs alongside the report data:
`(normal after, spike after, report)`.  All other statements only read
the inputs or build the report strings. -/
def compare_metrics (normal spike : MetricsSummary) : MetricsSummary × MetricsSummary × CMReport :=
  let spikeA :=
    if spike.long_queries.isEmpty then spike
    else { spike with long_queries := pySortLong spike.long_queries }
  let load_diff := spikeA.load_1m.avg - normal.load_1m.avg
  let load_pct :=
    if normal.load_1m.avg > 0 then load_diff / normal.load_1m.avg * 100 else 0
  let query_diff := spikeA.active_queries.avg - normal.active_queries.avg
  let query_pct :=
    if normal.active_queries.avg > 0 then
      query_diff / normal.active_queries.avg * 100
    else 0
  let durationCmp :=
    if normal.query_durations ≠ [] ∧ spikeA.query_durations ≠ [] then
      let normal_avg := pyMean normal.query_durations
      let spike_avg := pyMean spikeA.query_durations
      some { normal_avg := normal_avg, spike_avg := spike_avg,
             diff := spike_avg - normal_avg,
             pct := if normal_avg > 0 then
                      (spike_avg - normal_avg) / normal_avg * 100
                    else 0 }
    else none
  let both := normal.query_signatures ∩ spikeA.query_signatures
  let only_in_spike := spikeA.query_signatures \ normal.query_signatures
  let only_in_normal := normal.query_signatures \ spikeA.query_signatures
  let normal_apps := normal.applications.toFinset
  let spike_apps := spikeA.applications.toFinset
  let only_spike_apps := spike_apps \ normal_apps
  let only_normal_apps := normal_apps \ spike_apps
  let fired :=
    (if (spikeA.long_queries.length : ℚ) > (normal.long_queries.length : ℚ) * (3 / 2) then
       [Finding.critLongQueries normal.long_queries.length spikeA.long_queries.length]
     else [])
    ++ (if (spikeA.lock_waits.length : ℚ) > (normal.lock_waits.length : ℚ) * (6 / 5) then
          [Finding.highLockWaits normal.lock_waits.length spikeA.lock_waits.length]
        else [])
    ++ (if |load_pct| > 10 then [Finding.loadShift (decide (load_pct > 0)) |load_pct|]
        else [])
    ++ (if only_spike_apps ≠ ∅ then [Finding.newApps only_spike_apps.card] else [])
    ++ (match mostCommon1 (spikeA.long_queries.map (fun e => e.app)) with
        | some p => [Finding.mainCulprit p.1 p.2]
        | none => [])
  let findings := if fired.isEmpty then [Finding.noSignificantDiff] else fired
  (normal, spikeA,
    { load_diff := load_diff, load_pct := load_pct,
      query_diff := query_diff, query_pct := query_pct,
      durationCmp := durationCmp,
      both := both, only_in_spike := only_in_spike,
      only_in_normal := only_in_normal,
      only_spike_apps := only_spike_apps, only_normal_apps := only_normal_apps,
      findings := findings })

/-- Long-query entry of `compare_leader_replica.extract_metrics`
(line 46; no preview field). -/
structure LRLongQuery where
  duration : ℚ
  app : String
  wait : String
  wait_type : String
deriving DecidableEq

/-- Lock-wait entry of `compare_leader_replica.extract_metrics` (line 49). -/
structure LRLockWait where
  duration : ℚ
  app : String
  wait : String
deriving DecidableEq

/-- The dictionary returned by `compare_leader_replica.extract_metrics`
(lines 51–62). -/
structure LRSummary where
  snapshot_count : ℕ
  load_avg : ℚ
  active_queries_avg : ℚ
  total_queries : ℕ
  wait_event_types : List String
  wait_events : List String
  applications : List String
  long_queries : List LRLongQuery
  lock_waits : List LRLockWait
  avg_duration : ℚ
deriving DecidableEq

/-- `if duration > 10:` (compare_leader_replica.py lines 45–46). -/
def lrLongEntry (q : Query) : Option LRLongQuery :=
  if 10 < pyDuration q then
    some { duration := pyDuration q, app := pyApp q, wait := pyWaitEvent q,
           wait_type := pyWaitType q }
  else none

/-- `if wait_type == 'Lock':` (compare_leader_replica.py lines 48–49). -/
def lrLockEntry (q : Query) : Option LRLockWait :=
  if pyWaitType q = "Lock" then
    some { duration := pyDuration q, app := pyApp q, wait := pyWaitEvent q }
  else none

/-- `compare_leader_replica.extract_metrics` (lines 18–62): on the empty
sequence it returns the Python value `None` (modelled as `Option.none`,
a normal return, not an exception). -/
def extract_metricsLR : List Snapshot → Option LRSummary
  | [] => none
  | s0 :: rest =>
    let S := s0 :: rest
    let qs := snapQueries S
    some
      { snapshot_count := S.length
        load_avg := pyMean (S.map (fun s => s.load_avg_1m))
        active_queries_avg := pyMean (S.map (fun s => s.active_query_count))
        total_queries := (qs.map pyDuration).length
        wait_event_types := qs.map pyWaitType
        wait_events := qs.map pyWaitEvent
        applications := qs.map pyApp
        long_queries := qs.filterMap lrLongEntry
        lock_waits := qs.filterMap lrLockEntry
        avg_duration :=
          if (qs.map pyDuration) ≠ [] then pyMean (qs.map pyDuration) else 0 }

/-- The numeric comparisons computed by
`compare_leader_replica.compare_changes` (lines 65–187).  Only the values
are modelled; the markdown strings are formatting. -/
structure CCResult where
  load_change : ℚ
  load_pct : ℚ
  query_change : ℚ
  query_pct : ℚ
  long_normal_pct : ℚ
  long_spike_pct : ℚ
  lock_normal_pct : ℚ
  lock_spike_pct : ℚ
deriving DecidableEq

/-- `compare_changes(server_name, normal, spike)` (lines 65–187).
Line 75 divides by `normal['load_avg']` and line 84 by
`normal['active_queries_avg']` with no guard, so a zero baseline raises
`ZeroDivisionError`; the long-query and lock-wait percentages
(lines 92–93 and 105–106) are guarded by `if … > 0 else 0`.  Every later
percentage in the function divides by a quantity that is positive
whenever the iterated collection is non-empty (`len(spike['lock_waits'])`
inside `if len(...) > 0`, and `total_queries`, which is zero only when
the corresponding counters are empty and the loops run zero times), so
no further failure case arises. -/
def compare_changes (normal spike : LRSummary) : Except PyErr CCResult :=
  let load_change := spike.load_avg - normal.load_avg
  if normal.load_avg = 0 then Except.error PyErr.zeroDivision else
  let load_pct := load_change / normal.load_avg * 100
  let query_change := spike.active_queries_avg - normal.active_queries_avg
  if normal.active_queries_avg = 0 then Except.error PyErr.zeroDivision else
  let query_pct := query_change / normal.active_queries_avg * 100
  Except.ok
    { load_change := load_change, load_pct := load_pct,
      query_change := query_change, query_pct := query_pct,
      long_normal_pct :=
        if normal.total_queries > 0 then
          (normal.long_queries.length : ℚ) / (normal.total_queries : ℚ) * 100
        else 0,
      long_spike_pct :=
        if spike.total_queries > 0 then
          (spike.long_queries.length : ℚ) / (spike.total_queries : ℚ) * 100
        else 0,
      lock_normal_pct :=
        if normal.total_queries > 0 then
          (normal.lock_waits.length : ℚ) / (normal.total_queries : ℚ) * 100
        else 0,
      lock_spike_pct :=
        if spike.total_queries > 0 then
          (spike.lock_waits.length : ℚ) / (spike.total_queries : ℚ) * 100
        else 0 }

/-- The call `compare_changes(name, extract_metrics(...), extract_metrics(...))`
made by `main` (lines 227–236): subscripting the Python value `None`
raises `TypeError` before any comparison is computed. -/
def compare_changesOpt (a b : Option LRSummary) : Except PyErr CCResult :=
  match a, b with
  | some n, some s => compare_changes n s
  | _, _ => Except.error PyErr.typeError

/-- Literal transcription of the spec's words for the signature
(“the first 200 characters of `query_preview` with all runs of whitespace
collapsed to single spaces; undefined (absent) when `query_preview` is
empty”), used only to compare the spec's phrasing against
`get_query_signature`: each maximal whitespace run becomes one space and
nothing else changes.  The Boolean argument records whether the scan is
inside a whitespace run. -/
def collapseChars : List Char → Bool → List Char
  | [], _ => []
  | c :: cs, inRun =>
    if isPySpace c then
      if inRun then collapseChars cs true else ' ' :: collapseChars cs true
    else c :: collapseChars cs false

/-- String version of `collapseChars` (runs collapsed, nothing trimmed). -/
def collapseRuns (s : String) : String := ⟨collapseChars s.data false⟩

/-- Signature as the spec literally words it (see `collapseChars`). -/
def specQuerySignature (preview : String) : Option String :=
  if preview = "" then none else some (collapseRuns (strTake preview 200))

/-- All-fields-zero summary, used only to totalize `extractD`; no theorem
depends on its values. -/
def emptyStats4 : Stats4 := { min := 0, max := 0, avg := 0, median := 0 }

/-- All-fields-empty summary, used only to totalize `extractD`. -/
def emptyMetricsSummary : MetricsSummary :=
  { snapshot_count := 0, load_1m := emptyStats4, load_5m := emptyStats4,
    load_15m := emptyStats4, active_queries := emptyStats4,
    wait_events := [], wait_event_types := [], query_durations := [],
    transaction_durations := [], applications := [], users := [],
    query_patterns := [], query_signatures := ∅, total_queries_observed := 0,
    long_queries := [], lock_waits := [] }

/-- All-fields-empty leader/replica summary, used only to totalize
`extractLRD`. -/
def emptyLRSummary : LRSummary :=
  { snapshot_count := 0, load_avg := 0, active_queries_avg := 0,
    total_queries := 0, wait_event_types := [], wait_events := [],
    applications := [], long_queries := [], lock_waits := [],
    avg_duration := 0 }

/-- Total wrapper around `extract_metrics` for writing closed concrete
statements; every theorem using it also proves the call is `Except.ok`. -/
def extractD (S : List Snapshot) : MetricsSummary :=
  match extract_metrics S with
  | Except.ok m => m
  | Except.error _ => emptyMetricsSummary

/-- Total wrapper around `extract_metricsLR` for closed concrete
statements; every theorem using it also proves the call is `some`. -/
def extractLRD (S : List Snapshot) : LRSummary :=
  (extract_metricsLR S).getD emptyLRSummary

/-- Snapshot with zero load and zero active queries (a quiet instant). -/
def snapZero : Snapshot :=
  { load_avg_1m := 0, load_avg_5m := 0, load_avg_15m := 0,
    active_query_count := 0 }

/-- Snapshot with unit load carrying one query from application `a`. -/
def snapApp (a : String) : Snapshot :=
  { load_avg_1m := 1, load_avg_5m := 1, load_avg_15m := 1,
    active_query_count := 1, queries := [{ application_name := some a }] }

/-- Snapshot with unit load carrying one query of duration `d`. -/
def snapDur (d : ℚ) : Snapshot :=
  { load_avg_1m := 1, load_avg_5m := 1, load_avg_15m := 1,
    active_query_count := 1, queries := [{ query_duration_sec := some d }] }

/-- Snapshot carrying two long queries with durations 11 and 12, in that
order (an unsorted long-query list). -/
def snapTwoLong : Snapshot :=
  { load_avg_1m := 1, load_avg_5m := 1, load_avg_15m := 1,
    active_query_count := 2,
    queries := [{ query_duration_sec := some 11 },
                { query_duration_sec := some 12 }] }

/-- Snapshot carrying one query whose wait event type is `wt`. -/
def snapWaitType (wt : String) : Snapshot :=
  { load_avg_1m := 1, load_avg_5m := 1, load_avg_15m := 1,
    active_query_count := 1, queries := [{ wait_event_type := some wt }] }

/-- Snapshot carrying one query whose record has the key `username`
(the spec's field name) with value "alice" and no `usename` key. -/
def snapUserAlice : Snapshot :=
  { load_avg_1m := 1, load_avg_5m := 1, load_avg_15m := 1,
    active_query_count := 1, queries := [{ username := some "alice" }] }

/-- Helper: a guarded `filterMap` produces one output per element passing
the guard. -/
theorem length_filterMap_guard {α β : Type} (p : α → Prop) [DecidablePred p] (g : α → β) :
    ∀ l : List α,
      (l.filterMap (fun a => if p a then some (g a) else none)).length
        = (l.filter (fun a => p a)).length
  | [] => rfl
  | a :: t => by
    by_cases h : p a <;>
      simp [List.filterMap_cons, List.filter_cons, h, length_filterMap_guard p g t]

/-- Helper: the flattened query list is as long as the per-snapshot sum. -/
theorem length_snapQueries (S : List Snapshot) :
    (snapQueries S).length = (S.map (fun s => s.queries.length)).sum := by
  induction S with
  | nil => rfl
  | cons s0 rest ih => simp [snapQueries] at ih ⊢; omega

/-- Helper: counting a key in a mapped list is the number of elements
mapped to it. -/
theorem count_map_eq_length_filter {α : Type} (f : α → String) (u : String) :
    ∀ l : List α, (l.map f).count u = (l.filter (fun a => f a = u)).length
  | [] => rfl
  | a :: t => by
    by_cases h : f a = u <;>
      simp [List.count_cons, List.filter_cons, h, count_map_eq_length_filter f u t]

/-- C2: for every non-empty snapshot sequence whose snapshots supply the
required numeric fields, both extractors (`analyze_pg_spike` and
`compare_leader_replica`) report a total query count equal to the sum of
the per-snapshot query counts. -/
theorem total_queries_eq_sum (S : List Snapshot) :
    (∀ m, extract_metrics S = Except.ok m →
        m.total_queries_observed = (S.map (fun s => s.queries.length)).sum)
    ∧ (∀ m, extract_metricsLR S = some m →
        m.total_queries = (S.map (fun s => s.queries.length)).sum) := by
  constructor
  · intro m h
    cases S with
    | nil => simp [extract_metrics] at h
    | cons s0 rest =>
      simp only [extract_metrics, Except.ok.injEq] at h
      subst h
      simp [length_snapQueries]
  · intro m h
    cases S with
    | nil => simp [extract_metricsLR] at h
    | cons s0 rest =>
      simp only [extract_metricsLR, Option.some.injEq] at h
      subst h
      simp [length_snapQueries]

/-- Witness for C2 at a one-snapshot, one-query input. -/
theorem total_queries_eq_sum_witness :
    (extractD [snapApp "a"]).total_queries_observed
        = ([snapApp "a"].map (fun s => s.queries.length)).sum
    ∧ (extractLRD [snapApp "a"]).total_queries
        = ([snapApp "a"].map (fun s => s.queries.length)).sum :=
  ⟨(total_queries_eq_sum [snapApp "a"]).1 (extractD [snapApp "a"]) rfl,
   (total_queries_eq_sum [snapApp "a"]).2 (extractLRD [snapApp "a"]) rfl⟩

/-- Helper: every long-query entry of `analyze_pg_spike` records a
duration strictly above 10. -/
theorem duration_of_mem_longEntry {l : List Query} {e : LongQuery}
    (he : e ∈ l.filterMap longEntry) : 10 < e.duration := by
  rcases List.mem_filterMap.mp he with ⟨q, _, hq⟩
  unfold longEntry at hq
  split at hq
  · cases hq; simpa using by assumption
  · cases hq

/-- Helper: every long-query entry of `compare_leader_replica` records a
duration strictly above 10. -/
theorem duration_of_mem_lrLongEntry {l : List Query} {e : LRLongQuery}
    (he : e ∈ l.filterMap lrLongEntry) : 10 < e.duration := by
  rcases List.mem_filterMap.mp he with ⟨q, _, hq⟩
  unfold lrLongEntry at hq
  split at hq
  · cases hq; simpa using by assumption
  · cases hq

/-- Helper: the long-query list is as long as the filtered observation
list (one entry per qualifying observation). -/
theorem length_filterMap_longEntry (l : List Query) :
    (l.filterMap longEntry).length
      = (l.filter (fun q => 10 < pyDuration q)).length :=
  length_filterMap_guard (fun q => 10 < pyDuration q)
    (fun q => ({ duration := pyDuration q, app := pyApp q,
                 wait := pyWaitEvent q, wait_type := pyWaitType q,
                 preview := strTake (pyPreview q) 150 } : LongQuery)) l

/-- Helper: same as `length_filterMap_longEntry` for the leader/replica
extractor. -/
theorem length_filterMap_lrLongEntry (l : List Query) :
    (l.filterMap lrLongEntry).length
      = (l.filter (fun q => 10 < pyDuration q)).length :=
  length_filterMap_guard (fun q => 10 < pyDuration q)
    (fun q => ({ duration := pyDuration q, app := pyApp q,
                 wait := pyWaitEvent q, wait_type := pyWaitType q } : LRLongQuery)) l

/-- C5: an observation is classified as a long query exactly when its
duration is strictly greater than 10, in both extractors: every retained
entry has duration above 10 and the number of entries equals the number
of qualifying observations; at duration exactly 10 nothing is retained,
at 10.0001 one entry is. -/
theorem long_query_classification (S : List Snapshot) (m : MetricsSummary)
    (mlr : LRSummary) :
    (extract_metrics S = Except.ok m →
        (∀ e ∈ m.long_queries, 10 < e.duration)
        ∧ m.long_queries.length
            = ((snapQueries S).filter (fun q => 10 < pyDuration q)).length)
    ∧ (extract_metricsLR S = some mlr →
        (∀ e ∈ mlr.long_queries, 10 < e.duration)
        ∧ mlr.long_queries.length
            = ((snapQueries S).filter (fun q => 10 < pyDuration q)).length)
    ∧ (extractD [snapDur 10]).long_queries = []
    ∧ (extractD [snapDur (10.0001 : ℚ)]).long_queries.length = 1 := by
  refine ⟨?_, ?_, ?_, ?_⟩
  · intro h
    cases S with
    | nil => simp [extract_metrics] at h
    | cons s0 rest =>
      simp only [extract_metrics, Except.ok.injEq] at h
      subst h
      exact ⟨fun e he => duration_of_mem_longEntry he,
             length_filterMap_longEntry _⟩
  · intro h
    cases S with
    | nil => simp [extract_metricsLR] at h
    | cons s0 rest =>
      simp only [extract_metricsLR, Option.some.injEq] at h
      subst h
      exact ⟨fun e he => duration_of_mem_lrLongEntry he,
             length_filterMap_lrLongEntry _⟩
  · simp [extractD, extract_metrics, snapQueries, snapDur, longEntry, pyDuration,
          List.filterMap]
  · norm_num [extractD, extract_metrics, snapQueries, snapDur, longEntry, pyDuration,
              List.filterMap]

/-- Witness for C5 at the boundary input 10.0001. -/
theorem long_query_classification_witness :
    (∀ e ∈ (extractD [snapDur (10.0001 : ℚ)]).long_queries, 10 < e.duration)
    ∧ (extractD [snapDur (10.0001 : ℚ)]).long_queries.length
        = ((snapQueries [snapDur (10.0001 : ℚ)]).filter
            (fun q => 10 < pyDuration q)).length :=
  (long_query_classification [snapDur (10.0001 : ℚ)]
      (extractD [snapDur (10.0001 : ℚ)])
      (extractLRD [snapDur (10.0001 : ℚ)])).1 rfl

/-- Helper: the lock-wait list is as long as the filtered observation
list. -/
theorem length_filterMap_lockEntry (l : List Query) :
    (l.filterMap lockEntry).length
      = (l.filter (fun q => pyWaitType q = "Lock")).length :=
  length_filterMap_guard (fun q => pyWaitType q = "Lock")
    (fun q => ({ duration := pyDuration q, app := pyApp q,
                 wait := pyWaitEvent q,
                 preview := strTake (pyPreview q) 150 } : LockWait)) l

/-- Helper: same as `length_filterMap_lockEntry` for the leader/replica
extractor. -/
theorem length_filterMap_lrLockEntry (l : List Query) :
    (l.filterMap lrLockEntry).length
      = (l.filter (fun q => pyWaitType q = "Lock")).length :=
  length_filterMap_guard (fun q => pyWaitType q = "Lock")
    (fun q => ({ duration := pyDuration q, app := pyApp q,
                 wait := pyWaitEvent q } : LRLockWait)) l

/-- C6: an observation is classified as a lock wait exactly when its
`wait_event_type` equals the string "Lock" (case-sensitive): the number
of retained lock-wait entries equals the number of observations whose
wait type is exactly "Lock", in both extractors; a wait type "lock"
retains nothing, "Lock" retains one entry. -/
theorem lock_wait_classification (S : List Snapshot) (m : MetricsSummary)
    (mlr : LRSummary) :
    (extract_metrics S = Except.ok m →
        m.lock_waits.length
          = ((snapQueries S).filter (fun q => pyWaitType q = "Lock")).length)
    ∧ (extract_metricsLR S = some mlr →
        mlr.lock_waits.length
          = ((snapQueries S).filter (fun q => pyWaitType q = "Lock")).length)
    ∧ (extractD [snapWaitType "lock"]).lock_waits = []
    ∧ (extractD [snapWaitType "Lock"]).lock_waits.length = 1 := by
  refine ⟨?_, ?_, ?_, ?_⟩
  · intro h
    cases S with
    | nil => simp [extract_metrics] at h
    | cons s0 rest =>
      simp only [extract_metrics, Except.ok.injEq] at h
      subst h
      exact length_filterMap_lockEntry _
  · intro h
    cases S with
    | nil => simp [extract_metricsLR] at h
    | cons s0 rest =>
      simp only [extract_metricsLR, Option.some.injEq] at h
      subst h
      exact length_filterMap_lrLockEntry _
  · simp [extractD, extract_metrics, snapQueries, snapWaitType, lockEntry,
          pyWaitType, List.filterMap]
  · simp [extractD, extract_metrics, snapQueries, snapWaitType, lockEntry,
          pyWaitType, List.filterMap]

/-- Witness for C6 at the "Lock" input. -/
theorem lock_wait_classification_witness :
    (extractD [snapWaitType "Lock"]).lock_waits.length
      = ((snapQueries [snapWaitType "Lock"]).filter
          (fun q => pyWaitType q = "Lock")).length :=
  (lock_wait_classification [snapWaitType "Lock"]
      (extractD [snapWaitType "Lock"])
      (extractLRD [snapWaitType "Lock"])).1 rfl

/-- C4 (amended): the users frequency data counts, for each observation,
the value of its `usename` key (the `pg_stat_activity` column name read
at line 68), defaulting to "unknown" when that key is absent; each
observation contributes exactly one count to its key. -/
theorem users_count_by_usename (S : List Snapshot) (m : MetricsSummary)
    (h : extract_metrics S = Except.ok m) :
    m.users = (snapQueries S).map pyUser
    ∧ ∀ u, m.users.count u
        = ((snapQueries S).filter (fun q => pyUser q = u)).length := by
  cases S with
  | nil => simp [extract_metrics] at h
  | cons s0 rest =>
    simp only [extract_metrics, Except.ok.injEq] at h
    subst h
    exact ⟨rfl, fun u => count_map_eq_length_filter pyUser u _⟩

/-- Witness for C4's amended theorem at a concrete one-query input. -/
theorem users_count_by_usename_witness :
    (extractD [snapUserAlice]).users = (snapQueries [snapUserAlice]).map pyUser :=
  (users_count_by_usename [snapUserAlice] (extractD [snapUserAlice]) rfl).1

/-- C4 counterexample: an observation whose record carries the key
`username` (the spec's field name) with value "alice" and no `usename`
key is counted under "unknown", not under "alice" — the code reads the
key `usename`, so the claim as stated (counting the `username`
attribute) fails on this input. -/
theorem users_ignore_username_key :
    ([({ username := some "alice" } : Query)].map (fun q => q.username)
        = [some "alice"])
    ∧ extract_metrics [snapUserAlice] = Except.ok (extractD [snapUserAlice])
    ∧ (extractD [snapUserAlice]).users = ["unknown"]
    ∧ (extractD [snapUserAlice]).users.count "alice" = 0 := by
  refine ⟨rfl, rfl, ?_, ?_⟩
  · simp [extractD, extract_metrics, snapQueries, snapUserAlice, pyUser]
  · simp [extractD, extract_metrics, snapQueries, snapUserAlice, pyUser]

/-- C9 (amended): the query signature is a pure deterministic function of
`query_preview` alone — the whitespace-delimited words of the first 200
characters joined by single spaces (runs collapsed AND leading/trailing
whitespace dropped, Python's `' '.join(s.split())`); it is absent exactly
when the preview is empty, and an observation with empty preview
contributes nothing to the signature set. -/
theorem query_signature_characterization :
    (∀ q, get_query_signature q =
        (if pyPreview q = "" then none
         else some (joinSpace (pyWsSplit (strTake (pyPreview q) 200)))))
    ∧ (∀ q q', pyPreview q = pyPreview q' →
        get_query_signature q = get_query_signature q')
    ∧ (∀ q, get_query_signature q = none ↔ pyPreview q = "")
    ∧ (∀ (l1 l2 : List Query) (q : Query), pyPreview q = "" →
        sigSet (l1 ++ q :: l2) = sigSet (l1 ++ l2))
    ∧ (∀ S m, extract_metrics S = Except.ok m →
        m.query_signatures = sigSet (snapQueries S)) := by
  refine ⟨fun q => rfl, ?_, ?_, ?_, ?_⟩
  · intro q q' h
    unfold get_query_signature
    rw [h]
  · intro q
    by_cases h : pyPreview q = "" <;> simp [get_query_signature, h]
  · intro l1 l2 q h
    simp [sigSet, List.filterMap_append, List.filterMap_cons, sigContribution, h]
  · intro S m h
    cases S with
    | nil => simp [extract_metrics] at h
    | cons s0 rest =>
      simp only [extract_metrics, Except.ok.injEq] at h
      subst h
      rfl

/-- Witness for C9's amended theorem: two records with the same preview
but different other keys get the same signature. -/
theorem query_signature_characterization_witness :
    get_query_signature ({ query_preview := some " a" } : Query)
      = get_query_signature
          ({ query_preview := some " a", username := some "x" } : Query) :=
  query_signature_characterization.2.1 _ _ rfl

/-- C9 counterexample: on the preview " a" the code's signature is "a"
(leading whitespace dropped by `' '.join(split())`), while the claim's
wording — runs of whitespace collapsed to single spaces — yields " a";
the two disagree, so the signature is not literally the collapsed
200-character prefix. -/
theorem signature_differs_from_literal_collapse :
    pyPreview ({ query_preview := some " a" } : Query) = " a"
    ∧ get_query_signature ({ query_preview := some " a" } : Query) = some "a"
    ∧ specQuerySignature " a" = some " a"
    ∧ get_query_signature ({ query_preview := some " a" } : Query)
        ≠ specQuerySignature " a" := by
  exact ⟨rfl, by decide, by decide, by decide⟩

/-- C3 (amended): the comparison leaves the baseline untouched and every
field of the variant except `long_queries`, which the in-place
`spike['long_queries'].sort(key=..., reverse=True)` of line 203 replaces
by its stable descending-by-duration sort. -/
theorem compare_preserves_inputs_except_sort (n s : MetricsSummary) :
    (compare_metrics n s).1 = n
    ∧ (compare_metrics n s).2.1
        = { s with long_queries := pySortLong s.long_queries } := by
  refine ⟨rfl, ?_⟩
  by_cases h : s.long_queries.isEmpty
  · have he : s.long_queries = [] := by
      cases hl : s.long_queries with
      | nil => rfl
      | cons a t => rw [hl] at h; simp at h
    have hs : pySortLong s.long_queries = s.long_queries := by rw [he]; rfl
    simp [compare_metrics, h, hs]
  · simp [compare_metrics, h]

/-- C3 counterexample: a variant whose long queries arrive with durations
[11, 12] comes back from the comparison with them re-ordered to
[12, 11] — the analyzer does not leave the variant summary unchanged. -/
theorem compare_mutates_variant :
    (extractD [snapTwoLong]).long_queries.map (fun e => e.duration) = [11, 12]
    ∧ ((compare_metrics (extractD [snapTwoLong])
          (extractD [snapTwoLong])).2.1).long_queries.map (fun e => e.duration)
        = [12, 11]
    ∧ (compare_metrics (extractD [snapTwoLong]) (extractD [snapTwoLong])).2.1
        ≠ extractD [snapTwoLong] := by
  have h1 : (extractD [snapTwoLong]).long_queries.map (fun e => e.duration)
      = [11, 12] := by decide
  have h2 : ((compare_metrics (extractD [snapTwoLong])
        (extractD [snapTwoLong])).2.1).long_queries.map (fun e => e.duration)
      = [12, 11] := by decide
  refine ⟨h1, h2, fun heq => ?_⟩
  rw [heq, h1] at h2
  exact absurd h2 (by decide)

/-- Helper: the three signature-set parts partition the union. -/
theorem card_inter_sdiff_parts (A B : Finset String) :
    (A ∩ B).card + (A \ B).card + (B \ A).card = (A ∪ B).card := by
  have h1 := Finset.card_sdiff_add_card_inter A B
  have h2 := Finset.card_sdiff_add_card_inter B A
  have h3 := Finset.card_union_add_card_inter A B
  have h4 : (B ∩ A).card = (A ∩ B).card := by rw [Finset.inter_comm]
  omega

/-- C7: the comparison's signature sets are exactly the intersection and
the two relative complements of the periods' signature sets, and their
cardinalities add up to the cardinality of the union. -/
theorem signature_set_algebra (n s : MetricsSummary) :
    (compare_metrics n s).2.2.both = n.query_signatures ∩ s.query_signatures
    ∧ (compare_metrics n s).2.2.only_in_normal
        = n.query_signatures \ s.query_signatures
    ∧ (compare_metrics n s).2.2.only_in_spike
        = s.query_signatures \ n.query_signatures
    ∧ (compare_metrics n s).2.2.both.card
        + (compare_metrics n s).2.2.only_in_normal.card
        + (compare_metrics n s).2.2.only_in_spike.card
        = (n.query_signatures ∪ s.query_signatures).card := by
  obtain ⟨h1, h2, h3⟩ :
      (compare_metrics n s).2.2.both = n.query_signatures ∩ s.query_signatures
      ∧ (compare_metrics n s).2.2.only_in_normal
          = n.query_signatures \ s.query_signatures
      ∧ (compare_metrics n s).2.2.only_in_spike
          = s.query_signatures \ n.query_signatures := by
    by_cases h : s.long_queries.isEmpty <;> simp [compare_metrics, h]
  refine ⟨h1, h2, h3, ?_⟩
  rw [h1, h2, h3]
  exact card_inter_sdiff_parts _ _

/-- Helper: inserting into the descending sort adds one element. -/
theorem length_insertDescBy (f : LongQuery → ℚ) (x : LongQuery) :
    ∀ l, (insertDescBy f x l).length = l.length + 1
  | [] => rfl
  | y :: ys => by
    by_cases h : f y ≤ f x <;>
      simp [insertDescBy, h, length_insertDescBy f x ys]

/-- Helper: the stable descending sort preserves length. -/
theorem length_pySortLong (l : List LongQuery) :
    (pySortLong l).length = l.length := by
  induction l with
  | nil => rfl
  | cons a t ih =>
    simp only [pySortLong, List.foldr_cons] at ih ⊢
    rw [length_insertDescBy, ih]
    rfl

/-- C8 (amended): the findings list is exactly the in-declaration-order
concatenation of the findings of the rules whose threshold condition
holds, with the single "no significant difference" finding emitted
exactly when no rule fires.  The new-applications rule (rule 4) is
independent of the long-query, lock-wait and load conditions, so the
zero-long/zero-lock/identical-load scenario produces the single
no-difference finding only when additionally no application is unique to
the variant period. -/
theorem findings_rules (n s : MetricsSummary) :
    (compare_metrics n s).2.2.findings
      = (let load_pct :=
           if n.load_1m.avg > 0 then
             (s.load_1m.avg - n.load_1m.avg) / n.load_1m.avg * 100
           else 0
         let only_spike_apps :=
           s.applications.toFinset \ n.applications.toFinset
         let fired :=
           (if (s.long_queries.length : ℚ)
                > (n.long_queries.length : ℚ) * (3 / 2) then
              [Finding.critLongQueries n.long_queries.length
                s.long_queries.length]
            else [])
           ++ (if (s.lock_waits.length : ℚ)
                    > (n.lock_waits.length : ℚ) * (6 / 5) then
                 [Finding.highLockWaits n.lock_waits.length
                   s.lock_waits.length]
               else [])
           ++ (if |load_pct| > 10 then
                 [Finding.loadShift (decide (load_pct > 0)) |load_pct|]
               else [])
           ++ (if only_spike_apps ≠ ∅ then
                 [Finding.newApps only_spike_apps.card]
               else [])
           ++ (match mostCommon1
                  ((pySortLong s.long_queries).map (fun e => e.app)) with
               | some p => [Finding.mainCulprit p.1 p.2]
               | none => [])
         if fired.isEmpty then [Finding.noSignificantDiff] else fired) := by
  by_cases h : s.long_queries.isEmpty
  · have he : s.long_queries = [] := by
      cases hl : s.long_queries with
      | nil => rfl
      | cons a t => rw [hl] at h; simp at h
    simp [compare_metrics, h, he, pySortLong]
  · simp [compare_metrics, h, length_pySortLong]

/-- C8 counterexample: two extractor-produced summaries with zero long
queries, zero lock waits and identical load statistics, where the variant
nevertheless carries an application unseen in the baseline — the findings
are the single new-applications finding, not the "no significant
difference" finding the claim's scenario predicts. -/
theorem findings_scenario_b_fails :
    (extractD [snapApp "a"]).long_queries = []
    ∧ (extractD [snapApp "b"]).long_queries = []
    ∧ (extractD [snapApp "a"]).lock_waits = []
    ∧ (extractD [snapApp "b"]).lock_waits = []
    ∧ (extractD [snapApp "a"]).load_1m = (extractD [snapApp "b"]).load_1m
    ∧ (compare_metrics (extractD [snapApp "a"])
          (extractD [snapApp "b"])).2.2.findings = [Finding.newApps 1]
    ∧ (compare_metrics (extractD [snapApp "a"])
          (extractD [snapApp "b"])).2.2.findings
        ≠ [Finding.noSignificantDiff] := by
  have hba : (("b" : String) = "a") = False := by decide
  have hul : (("unknown" : String) = "Lock") = False := by decide
  have hfs : (["b"] : List String).toFinset \ (["a"] : List String).toFinset
      = {"b"} := by decide
  have hne : (({"b"} : Finset String) = ∅) = False := by decide
  have hcard : ({"b"} : Finset String).card = 1 := by decide
  refine ⟨by decide, by decide, by decide, by decide, rfl, ?_, ?_⟩
  · norm_num [compare_metrics, extractD, extract_metrics, snapApp, snapQueries,
      stat4, pyMean, longEntry, lockEntry, pyDuration, pyWaitType, pyApp,
      List.filterMap, mostCommon1, firstOccurrences, pySortLong,
      hba, hul, hfs, hne, hcard]
    decide
  · norm_num [compare_metrics, extractD, extract_metrics, snapApp, snapQueries,
      stat4, pyMean, longEntry, lockEntry, pyDuration, pyWaitType, pyApp,
      List.filterMap, mostCommon1, firstOccurrences, pySortLong,
      hba, hul, hfs, hne, hcard]
    decide

/-- C1 (amended): in the single-server comparison the three metric deltas
and percentages follow `delta = variant − baseline` with the percentage
guarded to 0 whenever the baseline is not positive (in particular when it
is 0); the leader/replica per-server comparison guards only the
long-query and lock-wait percentages, while its load and active-query
percentages divide unguarded — `compare_changes` raises
`ZeroDivisionError` exactly when the baseline's load average or
active-query average is zero. -/
theorem percent_change_guard (n s : MetricsSummary) (nl sl : LRSummary) :
    ((compare_metrics n s).2.2.load_diff = s.load_1m.avg - n.load_1m.avg
     ∧ (compare_metrics n s).2.2.load_pct
         = (if n.load_1m.avg > 0 then
              (s.load_1m.avg - n.load_1m.avg) / n.load_1m.avg * 100
            else 0)
     ∧ (n.load_1m.avg = 0 → (compare_metrics n s).2.2.load_pct = 0)
     ∧ (compare_metrics n s).2.2.query_diff
         = s.active_queries.avg - n.active_queries.avg
     ∧ (compare_metrics n s).2.2.query_pct
         = (if n.active_queries.avg > 0 then
              (s.active_queries.avg - n.active_queries.avg)
                / n.active_queries.avg * 100
            else 0)
     ∧ (n.active_queries.avg = 0 → (compare_metrics n s).2.2.query_pct = 0)
     ∧ (∀ d, (compare_metrics n s).2.2.durationCmp = some d →
          d.normal_avg = pyMean n.query_durations
          ∧ d.diff = d.spike_avg - d.normal_avg
          ∧ d.pct
              = (if d.normal_avg > 0 then d.diff / d.normal_avg * 100 else 0)
          ∧ (d.normal_avg = 0 → d.pct = 0)))
    ∧ (compare_changes nl sl = Except.error PyErr.zeroDivision
        ↔ nl.load_avg = 0 ∨ nl.active_queries_avg = 0) := by
  constructor
  · refine ⟨?_, ?_, ?_, ?_, ?_, ?_, ?_⟩
    · by_cases h : s.long_queries.isEmpty <;> simp [compare_metrics, h]
    · by_cases h : s.long_queries.isEmpty <;> simp [compare_metrics, h]
    · intro h0
      by_cases h : s.long_queries.isEmpty <;>
        simp [compare_metrics, h, h0, lt_irrefl]
    · by_cases h : s.long_queries.isEmpty <;> simp [compare_metrics, h]
    · by_cases h : s.long_queries.isEmpty <;> simp [compare_metrics, h]
    · intro h0
      by_cases h : s.long_queries.isEmpty <;>
        simp [compare_metrics, h, h0, lt_irrefl]
    · intro d hd
      have hd2 : (if n.query_durations ≠ [] ∧ s.query_durations ≠ [] then
          some { normal_avg := pyMean n.query_durations,
                 spike_avg := pyMean s.query_durations,
                 diff := pyMean s.query_durations - pyMean n.query_durations,
                 pct := if pyMean n.query_durations > 0 then
                          (pyMean s.query_durations - pyMean n.query_durations)
                            / pyMean n.query_durations * 100
                        else 0 }
          else (none : Option DurationCmp)) = some d := by
        rw [← hd]
        by_cases h : s.long_queries.isEmpty <;> simp [compare_metrics, h]
      split at hd2
      · cases hd2
        refine ⟨rfl, rfl, rfl, fun h0 => ?_⟩
        have h0Q : pyMean n.query_durations = 0 := h0
        simp [h0Q, lt_irrefl]
      · cases hd2
  · by_cases h1 : nl.load_avg = 0 <;> by_cases h2 : nl.active_queries_avg = 0 <;>
      simp [compare_changes, h1, h2]

/-- Witness for C1's amended theorem at the all-zero snapshot. -/
theorem percent_change_guard_witness :
    (compare_metrics (extractD [snapZero]) (extractD [snapZero])).2.2.load_pct = 0
    ∧ compare_changes (extractLRD [snapZero]) (extractLRD [snapZero])
        = Except.error PyErr.zeroDivision := by
  have h0 : (extractD [snapZero]).load_1m.avg = 0 := by
    norm_num [extractD, extract_metrics, stat4, pyMean, snapZero]
  have hl : (extractLRD [snapZero]).load_avg = 0 := by
    norm_num [extractLRD, extract_metricsLR, pyMean, snapZero]
  exact ⟨(percent_change_guard (extractD [snapZero]) (extractD [snapZero])
            (extractLRD [snapZero]) (extractLRD [snapZero])).1.2.2.1 h0,
         ((percent_change_guard (extractD [snapZero]) (extractD [snapZero])
            (extractLRD [snapZero]) (extractLRD [snapZero])).2).mpr (Or.inl hl)⟩

/-- C1 counterexample: an extractor-produced leader/replica summary with
zero mean load makes the per-server comparison raise `ZeroDivisionError`
instead of reporting a zero percentage — the zero-guard is not applied in
this comparison path. -/
theorem lr_compare_divides_by_zero :
    extract_metricsLR [snapZero] = some (extractLRD [snapZero])
    ∧ (extractLRD [snapZero]).load_avg = 0
    ∧ compare_changes (extractLRD [snapZero]) (extractLRD [snapZero])
        = Except.error PyErr.zeroDivision := by
  have hl : (extractLRD [snapZero]).load_avg = 0 := by
    norm_num [extractLRD, extract_metricsLR, pyMean, snapZero]
  exact ⟨rfl, hl, by simp [compare_changes, hl]⟩

/-- C10: on the empty snapshot sequence the leader/replica extractor
returns the absent value `None` while the single-server extractor raises
`ValueError`; feeding the absent value to the per-server comparison
raises `TypeError` instead of producing a report. -/
theorem empty_sequence_contract :
    extract_metricsLR [] = none
    ∧ extract_metrics [] = Except.error PyErr.valueError
    ∧ (∀ x : Option LRSummary,
        compare_changesOpt none x = Except.error PyErr.typeError
        ∧ compare_changesOpt x none = Except.error PyErr.typeError) := by
  refine ⟨rfl, rfl, fun x => ?_⟩
  cases x <;> exact ⟨rfl, rfl⟩
